import Mathlib

/-!
Verification development for the baby-sleep-tracker backend.

Each definition is a shallow embedding of the corresponding Python source:
* `backend/config.py` — configuration constants,
* `collections.deque(maxlen=n)` — the `Deque` structure (used for every
  rolling window, cf. `SleepDetector.__init__` and
  `backend/camera/frame_queue.py`),
* `backend/trackers/cry_tracker.py` — `CryTracker`,
* `backend/trackers/diaper_tracker.py` — `DiaperTracker`,
* `backend/notifications/notifier.py` — `NotificationDispatcher`,
* `backend/detectors/sleep_detector.py` — the voting logic and the
  wake/sleep state machine.

Wall-clock time (`time.time()`) is passed explicitly as a rational; the
`@_debounce(seconds)` decorator of `sleep_detector.py` is modelled by an
explicit optional last-run timestamp checked by `debounceReady`.
-/

namespace BabySleep

/-! ### Constants from `backend/config.py` -/

def EYES_OPEN_Q_SIZE : Nat := 30
def EYES_OPEN_VOTE_THRESHOLD : ℚ := 3/4
def MOVEMENT_Q_SIZE : Nat := 10
def MOVEMENT_STD_THRESHOLD : Int := 30
def AWAKE_Q_SIZE : Nat := 15
def AWAKE_THRESHOLD : ℚ := 3/5
def EYES_AWAKE_VOTE_WEIGHT : ℚ := 3
def DEBOUNCE_WAKE_EVENT : ℚ := 180
def DEBOUNCE_WAKE_STATUS : ℚ := 10
def DEBOUNCE_VOTING : ℚ := 1
def NOTIFICATION_COOLDOWN_SECONDS : ℚ := 300
def DIAPER_REMINDER_HOURS : ℚ := 4

/-! ### `collections.deque(maxlen = n)`

Model of the bounded deques used for every rolling window.  `data` is kept
oldest-first; `append` adds on the right and, when the deque is full,
discards the leftmost (oldest) element, exactly as CPython's
`deque.append` with a `maxlen` does (a `maxlen` of 0 keeps the deque
empty). -/

structure Deque (α : Type) where
  maxlen : Nat
  data : List α
deriving Repr, DecidableEq

def Deque.append {α : Type} (q : Deque α) (x : α) : Deque α :=
  if q.maxlen = 0 then q
  else if q.data.length < q.maxlen then ⟨q.maxlen, q.data ++ [x]⟩
  else ⟨q.maxlen, q.data.tail ++ [x]⟩

def Deque.popleft {α : Type} (q : Deque α) : Deque α :=
  ⟨q.maxlen, q.data.tail⟩

/-! ### `backend/trackers/cry_tracker.py` -/

/-- Result values returned by `CryTracker.update`: the Python tuples
`("cry_start", confidence)` and `("cry_stop", duration_seconds)`. -/
inductive CryResult where
  | cry_start (confidence : ℚ)
  | cry_stop (duration : ℚ)
deriving Repr, DecidableEq

structure CryTracker where
  is_crying : Bool
  consecutive_cry : Nat
  consecutive_quiet : Nat
  cry_start_time : Option ℚ
  onset_threshold : Nat
  offset_threshold : Nat
deriving Repr, DecidableEq

/-- `CryTracker.__init__(onset_threshold, offset_threshold)`. -/
def CryTracker.init (onset_threshold offset_threshold : Nat) : CryTracker :=
  ⟨false, 0, 0, none, onset_threshold, offset_threshold⟩

/-- `CryTracker.update(is_crying, confidence)`; `now` stands for the
`time.time()` calls inside the method. -/
def CryTracker.update (s : CryTracker) (now : ℚ) (is_crying : Bool)
    (confidence : ℚ) : CryTracker × Option CryResult :=
  if is_crying then
    let s' := { s with consecutive_cry := s.consecutive_cry + 1,
                       consecutive_quiet := 0 }
    if s'.is_crying = false ∧ s'.onset_threshold ≤ s'.consecutive_cry then
      ({ s' with is_crying := true, cry_start_time := some now },
       some (.cry_start confidence))
    else (s', none)
  else
    let s' := { s with consecutive_quiet := s.consecutive_quiet + 1,
                       consecutive_cry := 0 }
    if s'.is_crying = true ∧ s'.offset_threshold ≤ s'.consecutive_quiet then
      ({ s' with is_crying := false },
       some (.cry_stop (now - s'.cry_start_time.getD 0)))
    else (s', none)

/-- Feed a list of `(now, is_crying, confidence)` samples through
`CryTracker.update`, collecting each call's returned event. -/
def CryTracker.run (s : CryTracker) :
    List (ℚ × Bool × ℚ) → CryTracker × List (Option CryResult)
  | [] => (s, [])
  | (now, b, c) :: rest =>
    let r := s.update now b c
    let r' := r.1.run rest
    (r'.1, r.2 :: r'.2)

/-! ### Theorems for claims C4 and C7 -/

/-- C4: with `onset_threshold = 3` and `offset_threshold = 5`, starting
quiet, the classification sequence `[0,1,1,1,0,0,0,0,0]` produces exactly
one `cry_start` (returned at the third consecutive 1, the fourth call) and
exactly one `cry_stop` (returned once five consecutive 0s have accumulated
after the start, with the elapsed duration); every other call returns no
event. -/
theorem cry_tracker_sequence :
    (CryTracker.run (CryTracker.init 3 5)
      [(0, false, 0), (1, true, 9/10), (2, true, 9/10), (3, true, 9/10),
       (4, false, 0), (5, false, 0), (6, false, 0), (7, false, 0),
       (8, false, 0)]).2 =
    [none, none, none, some (.cry_start (9/10)),
     none, none, none, none, some (.cry_stop 5)] := by
  simp [CryTracker.run, CryTracker.update, CryTracker.init]
  norm_num

lemma deque_foldl_append_fill {α : Type} (l : List α) (q : Deque α)
    (h : q.data.length + l.length ≤ q.maxlen) :
    List.foldl Deque.append q l = ⟨q.maxlen, q.data ++ l⟩ := by
  induction l generalizing q with
  | nil => simp
  | cons a l ih =>
    have hl : (a :: l).length = l.length + 1 := by simp
    rw [hl] at h
    have hlen : q.data.length < q.maxlen := by omega
    have hml : ¬ q.maxlen = 0 := by omega
    have hstep : Deque.append q a = ⟨q.maxlen, q.data ++ [a]⟩ := by
      unfold Deque.append
      rw [if_neg hml, if_pos hlen]
    rw [List.foldl_cons, hstep, ih]
    · simp
    · simp; omega

/-- C7: a rolling window of capacity `N ≥ 1` (a) never grows beyond `N`
samples on `append`, (b) evicts the oldest (leftmost) sample first when
full, and (c) after inserting `x` followed by `N` further samples into an
initially empty window the contents are exactly those `N` later samples,
so the first-inserted sample is absent whenever it differs from them. -/
theorem rolling_window_capacity_fifo (N : Nat) (hN : 1 ≤ N) (x : ℚ)
    (xs : List ℚ) (hlen : xs.length = N) (hx : x ∉ xs) :
    (∀ (q : Deque ℚ) (y : ℚ), q.data.length ≤ q.maxlen →
        ((q.append y).data.length ≤ q.maxlen ∧
         (1 ≤ q.maxlen → q.data.length = q.maxlen →
           (q.append y).data = q.data.tail ++ [y]))) ∧
    (List.foldl Deque.append (⟨N, []⟩ : Deque ℚ) (x :: xs)).data = xs ∧
    x ∉ (List.foldl Deque.append (⟨N, []⟩ : Deque ℚ) (x :: xs)).data := by
  have hmain :
      (List.foldl Deque.append (⟨N, []⟩ : Deque ℚ) (x :: xs)).data = xs := by
    rcases List.eq_nil_or_concat xs with rfl | ⟨ys, z, rfl⟩
    · simp at hlen; omega
    · simp only [List.concat_eq_append] at hlen hx ⊢
      have hys : ys.length + 1 = N := by simpa using hlen
      have hN0 : N ≠ 0 := by omega
      have hstep1 :
          Deque.append (⟨N, []⟩ : Deque ℚ) x = ⟨N, [x]⟩ := by
        have h0 : ([] : List ℚ).length < N := by simp; omega
        simp [Deque.append, hN0, h0]
      have hfill :
          List.foldl Deque.append (⟨N, [x]⟩ : Deque ℚ) ys = ⟨N, x :: ys⟩ := by
        have h2 := deque_foldl_append_fill ys (⟨N, [x]⟩ : Deque ℚ)
          (by simp; omega)
        simpa using h2
      have hlast :
          Deque.append (⟨N, x :: ys⟩ : Deque ℚ) z = ⟨N, ys ++ [z]⟩ := by
        have h3 : ¬ ((x :: ys).length < N) := by simp; omega
        simp [Deque.append, hN0, h3]
        omega
      rw [List.foldl_cons, hstep1, List.foldl_append, hfill, List.foldl_cons,
        hlast]
      simp
  refine ⟨?_, hmain, by rw [hmain]; exact hx⟩
  intro q y hq
  constructor
  · unfold Deque.append
    split
    next hm => exact hq
    next hm =>
      split
      next hlt => simp; omega
      next hlt => simp; omega
  · intro h1 hfull
    unfold Deque.append
    rw [if_neg (by omega), if_neg (by omega)]

/-- Concrete instance of `rolling_window_capacity_fifo`: capacity 3,
first sample 9, then three further samples. -/
theorem rolling_window_capacity_fifo_witness :
    (1 ≤ 3 ∧ ([1, 2, 3] : List ℚ).length = 3 ∧ (9 : ℚ) ∉ ([1, 2, 3] : List ℚ)) ∧
    (List.foldl Deque.append (⟨3, []⟩ : Deque ℚ) ([9, 1, 2, 3] : List ℚ)).data
      = [1, 2, 3] ∧
    (9 : ℚ) ∉ (List.foldl Deque.append (⟨3, []⟩ : Deque ℚ)
      ([9, 1, 2, 3] : List ℚ)).data := by
  have h := rolling_window_capacity_fifo 3 (by norm_num) 9 [1, 2, 3]
    (by simp) (by norm_num)
  exact ⟨⟨by norm_num, by simp, by norm_num⟩, h.2.1, h.2.2⟩

/-! ### `SleepDetector._awake_voting_logic`

State touched by the eye-state vote of `sleep_detector.py`: the
`eyes_open_q` rolling window (capacity `EYES_OPEN_Q_SIZE`), the shared
`awake_q` vote window (capacity `AWAKE_Q_SIZE`), the `vote_reasons` list
and the `eyes_open_state` flag.  The body of `_awake_voting_logic` is
translated literally — including its guard
`len(self.eyes_open_q) > len(self.eyes_open_q) / 2` (Python true
division, hence the cast to ℚ). -/

structure VoteState where
  eyes_open_q : Deque ℚ
  awake_q : Deque ℚ
  vote_reasons : List String
  eyes_open_state : Bool
deriving Repr, DecidableEq

def awakeVotingLogic (s : VoteState) : VoteState :=
  if ((s.eyes_open_q.data.length : ℚ) > (s.eyes_open_q.data.length : ℚ) / 2) then
    if s.eyes_open_q.data.sum / s.eyes_open_q.data.length
        > EYES_OPEN_VOTE_THRESHOLD then
      { s with eyes_open_state := true,
               awake_q := s.awake_q.append EYES_AWAKE_VOTE_WEIGHT,
               vote_reasons := s.vote_reasons ++ ["Eyes Open"] }
    else
      { s with eyes_open_state := false,
               awake_q := s.awake_q.append 0,
               vote_reasons := s.vote_reasons ++ ["Eyes Closed"] }
  else s

/-- State of the detector at the failing input for claim C1: the eye
window holds a single sample (value 1, "open"), far below half of its
capacity of 30. -/
def c1State : VoteState :=
  ⟨⟨EYES_OPEN_Q_SIZE, [1]⟩, ⟨AWAKE_Q_SIZE, [0]⟩, [], false⟩

/-- C1 (code bug): the eyes-open sub-vote fires although its rolling
window holds only 1 of EYES_OPEN_Q_SIZE = 30 samples — not "more than
half populated" as the claim requires.  The source guard
`len(self.eyes_open_q) > len(self.eyes_open_q) / 2` compares the window's
length with half of itself, so it is satisfied by any non-empty window;
the vote (weight `EYES_AWAKE_VOTE_WEIGHT`, reason "Eyes Open") is
appended to `awake_q` on a singleton window. -/
theorem eyes_vote_fires_on_singleton_window :
    2 * c1State.eyes_open_q.data.length ≤ EYES_OPEN_Q_SIZE ∧
    (awakeVotingLogic c1State).awake_q.data = [0, EYES_AWAKE_VOTE_WEIGHT] ∧
    (awakeVotingLogic c1State).vote_reasons = ["Eyes Open"] := by
  refine ⟨by norm_num [c1State, EYES_OPEN_Q_SIZE], ?_, ?_⟩ <;>
    norm_num [awakeVotingLogic, c1State, Deque.append, EYES_OPEN_Q_SIZE,
      AWAKE_Q_SIZE, EYES_OPEN_VOTE_THRESHOLD, EYES_AWAKE_VOTE_WEIGHT]

/-! ### `SleepDetector._set_wakeness_status` / `_write_wakeness_event`

The wake/sleep state machine.  `is_awake` is the logged state, `events`
the append-only log of `(state, confidence)` transitions written through
`sqlite_store.log_sleep_event`, and the two optional timestamps are the
closure-local timers of the `@_debounce(DEBOUNCE_WAKE_STATUS)` and
`@_debounce(DEBOUNCE_WAKE_EVENT)` decorators.  The contents of `awake_q`
at each evaluation are passed in as a list (the queue is filled by the
voting methods between evaluations). -/

structure DetectorState where
  is_awake : Bool
  events : List (Bool × ℚ)
  wake_status_t : Option ℚ
  wake_event_t : Option ℚ
deriving Repr, DecidableEq

/-- Guard of the `_debounce(seconds)` decorator:
`t is None or now - t >= seconds`. -/
def debounceReady (t : Option ℚ) (seconds now : ℚ) : Bool :=
  match t with
  | none => true
  | some t0 => decide (now - t0 ≥ seconds)

/-- Mean of the rolling vote window: `sum(q) / len(q)`. -/
def avgOf (q : List ℚ) : ℚ := q.sum / q.length

def writeWakenessEvent (now : ℚ) (wake_status : Bool) (q : List ℚ)
    (s : DetectorState) : DetectorState :=
  if debounceReady s.wake_event_t DEBOUNCE_WAKE_EVENT now then
    { s with
        events := s.events ++
          [(wake_status, (if q.length ≠ 0 then avgOf q else 0))]
        is_awake := wake_status
        wake_event_t := some now }
  else s

def setWakenessStatus (now : ℚ) (q : List ℚ) (s : DetectorState) :
    DetectorState :=
  if debounceReady s.wake_status_t DEBOUNCE_WAKE_STATUS now then
    { (if q.length ≠ 0 then
        (if avgOf q ≥ AWAKE_THRESHOLD ∧ s.is_awake = false then
          writeWakenessEvent now true q s
        else if avgOf q < AWAKE_THRESHOLD ∧ s.is_awake = true then
          writeWakenessEvent now false q s
        else s)
      else s) with wake_status_t := some now }
  else s

/-- C2 (counterexample): with the logged state asleep and the rolling
aggregate exactly equal to `AWAKE_THRESHOLD` (window `[3/5]`), the state
machine transitions to awake and logs an event — the source uses `>=` on
the awake side, so touching the threshold does cause a transition,
contradicting the claim that an aggregate exactly at the threshold never
causes one. -/
theorem wakeness_touching_threshold_transitions :
    avgOf [3/5] = AWAKE_THRESHOLD ∧
    (setWakenessStatus 0 [3/5] ⟨false, [], none, none⟩).is_awake = true ∧
    (setWakenessStatus 0 [3/5] ⟨false, [], none, none⟩).events
      = [(true, AWAKE_THRESHOLD)] := by
  norm_num [setWakenessStatus, writeWakenessEvent, debounceReady, avgOf,
    AWAKE_THRESHOLD]

/-- C2 (amended): the logged state changes only when the aggregate is on
the opposite side of `AWAKE_THRESHOLD` from the current logged state,
where the awake side includes equality: (1) any change of `is_awake`
requires a non-empty window and either aggregate ≥ threshold while
asleep or aggregate < threshold while awake; (2) an aggregate exactly
equal to the threshold never causes an awake→asleep transition and logs
nothing while awake; (3) an aggregate exactly equal to the threshold
does cause an asleep→awake transition (once both debounce intervals
allow), logging one awake event. -/
theorem wakeness_hysteresis_amended :
    (∀ (now : ℚ) (q : List ℚ) (s : DetectorState),
        (setWakenessStatus now q s).is_awake ≠ s.is_awake →
        q.length ≠ 0 ∧
        ((AWAKE_THRESHOLD ≤ avgOf q ∧ s.is_awake = false) ∨
         (avgOf q < AWAKE_THRESHOLD ∧ s.is_awake = true))) ∧
    (∀ (now : ℚ) (q : List ℚ) (s : DetectorState),
        s.is_awake = true → avgOf q = AWAKE_THRESHOLD →
        (setWakenessStatus now q s).is_awake = true ∧
        (setWakenessStatus now q s).events = s.events) ∧
    (∀ (now : ℚ) (q : List ℚ) (s : DetectorState),
        s.is_awake = false → avgOf q = AWAKE_THRESHOLD → q.length ≠ 0 →
        debounceReady s.wake_status_t DEBOUNCE_WAKE_STATUS now = true →
        debounceReady s.wake_event_t DEBOUNCE_WAKE_EVENT now = true →
        (setWakenessStatus now q s).is_awake = true ∧
        (setWakenessStatus now q s).events
          = s.events ++ [(true, AWAKE_THRESHOLD)]) := by
  refine ⟨?_, ?_, ?_⟩
  · intro now q s hch
    by_cases h1 : debounceReady s.wake_status_t DEBOUNCE_WAKE_STATUS now = true
    · rw [setWakenessStatus, if_pos h1] at hch
      by_cases h2 : q.length ≠ 0
      · rw [if_pos h2] at hch
        by_cases h3 : avgOf q ≥ AWAKE_THRESHOLD ∧ s.is_awake = false
        · exact ⟨h2, Or.inl ⟨h3.1, h3.2⟩⟩
        · rw [if_neg h3] at hch
          by_cases h4 : avgOf q < AWAKE_THRESHOLD ∧ s.is_awake = true
          · exact ⟨h2, Or.inr h4⟩
          · rw [if_neg h4] at hch; simp at hch
      · rw [if_neg h2] at hch; simp at hch
    · rw [setWakenessStatus, if_neg h1] at hch; simp at hch
  · intro now q s hA hT
    have hc1 : ¬ (avgOf q ≥ AWAKE_THRESHOLD ∧ s.is_awake = false) := by
      simp [hA]
    have hc2 : ¬ (avgOf q < AWAKE_THRESHOLD ∧ s.is_awake = true) := by
      simp [hT]
    by_cases h1 : debounceReady s.wake_status_t DEBOUNCE_WAKE_STATUS now = true
    · rw [setWakenessStatus, if_pos h1]
      by_cases h2 : q.length ≠ 0
      · rw [if_pos h2, if_neg hc1, if_neg hc2]; exact ⟨hA, rfl⟩
      · rw [if_neg h2]; exact ⟨hA, rfl⟩
    · rw [setWakenessStatus, if_neg h1]; exact ⟨hA, rfl⟩
  · intro now q s hA hT hq h1 h2
    have hc1 : avgOf q ≥ AWAKE_THRESHOLD ∧ s.is_awake = false := by
      constructor
      · rw [hT]
      · exact hA
    rw [setWakenessStatus, if_pos h1, if_pos hq, if_pos hc1,
      writeWakenessEvent, if_pos h2]
    refine ⟨rfl, ?_⟩
    simp [hq, hT]

/-- Concrete instance of `wakeness_hysteresis_amended`: a transition that
did occur (asleep, window `[1]`) satisfies the characterization, an
awake state at exactly the threshold (window `[3/5]`) is left unchanged,
and an asleep state at exactly the threshold transitions. -/
theorem wakeness_hysteresis_amended_witness :
    (([1] : List ℚ).length ≠ 0 ∧
      ((AWAKE_THRESHOLD ≤ avgOf [1] ∧ false = false) ∨
       (avgOf [1] < AWAKE_THRESHOLD ∧ false = true))) ∧
    ((setWakenessStatus 7 [3/5] ⟨true, [], none, none⟩).is_awake = true ∧
     (setWakenessStatus 7 [3/5] ⟨true, [], none, none⟩).events = []) ∧
    (setWakenessStatus 7 [3/5] ⟨false, [], none, none⟩).is_awake = true := by
  refine ⟨?_, ?_, ?_⟩
  · exact wakeness_hysteresis_amended.1 0 [1] ⟨false, [], none, none⟩
      (by norm_num [setWakenessStatus, writeWakenessEvent, debounceReady,
        avgOf, AWAKE_THRESHOLD])
  · exact wakeness_hysteresis_amended.2.1 7 [3/5] ⟨true, [], none, none⟩ rfl
      (by norm_num [avgOf, AWAKE_THRESHOLD])
  · exact (wakeness_hysteresis_amended.2.2 7 [3/5] ⟨false, [], none, none⟩ rfl
      (by norm_num [avgOf, AWAKE_THRESHOLD]) (by norm_num) rfl rfl).1

/-! ### Evaluation traces of the wake/sleep state machine (claim C5) -/

/-- One evaluation of `_set_wakeness_status`: a pair of the evaluation
time and the contents of `awake_q` at that moment. -/
def wakeStep (s : DetectorState) (e : ℚ × List ℚ) : DetectorState :=
  setWakenessStatus e.1 e.2 s

def wakeRun (s : DetectorState) (evs : List (ℚ × List ℚ)) : DetectorState :=
  evs.foldl wakeStep s

/-- While already awake with the aggregate at or above the threshold, one
evaluation changes neither the logged state nor the event log — for any
debounce-timer contents. -/
lemma setWakeness_awake_noop (now : ℚ) (q : List ℚ) (s : DetectorState)
    (hA : s.is_awake = true) (hT : AWAKE_THRESHOLD ≤ avgOf q) :
    (setWakenessStatus now q s).is_awake = true ∧
    (setWakenessStatus now q s).events = s.events := by
  have hc1 : ¬ (avgOf q ≥ AWAKE_THRESHOLD ∧ s.is_awake = false) := by
    simp [hA]
  have hc2 : ¬ (avgOf q < AWAKE_THRESHOLD ∧ s.is_awake = true) := by
    rintro ⟨hlt, _⟩
    exact absurd hlt (not_lt.mpr hT)
  by_cases h1 : debounceReady s.wake_status_t DEBOUNCE_WAKE_STATUS now = true
  · rw [setWakenessStatus, if_pos h1]
    by_cases h2 : q.length ≠ 0
    · rw [if_pos h2, if_neg hc1, if_neg hc2]
      exact ⟨hA, rfl⟩
    · rw [if_neg h2]
      exact ⟨hA, rfl⟩
  · rw [setWakenessStatus, if_neg h1]
    exact ⟨hA, rfl⟩

lemma wakeRun_awake_noop (evs : List (ℚ × List ℚ)) (s : DetectorState)
    (hA : s.is_awake = true)
    (h : ∀ e ∈ evs, AWAKE_THRESHOLD ≤ avgOf e.2) :
    (wakeRun s evs).is_awake = true ∧ (wakeRun s evs).events = s.events := by
  induction evs generalizing s with
  | nil => exact ⟨hA, rfl⟩
  | cons e rest ih =>
    have h1 := setWakeness_awake_noop e.1 e.2 s hA (h e (by simp))
    have h2 := ih (setWakenessStatus e.1 e.2 s) h1.1
      (fun p hp => h p (by simp [hp]))
    simp only [wakeRun, wakeStep, List.foldl_cons] at h2 ⊢
    exact ⟨h2.1, h2.2.trans h1.2⟩

/-- With fresh debounce timers, a non-empty window at or above the
threshold and the logged state asleep, the evaluation fires: one awake
event is logged and both timers are set. -/
lemma setWakeness_first_fire (now : ℚ) (q : List ℚ) (s : DetectorState)
    (hA : s.is_awake = false) (hst : s.wake_status_t = none)
    (het : s.wake_event_t = none) (hq : q.length ≠ 0)
    (hT : AWAKE_THRESHOLD ≤ avgOf q) :
    setWakenessStatus now q s =
      { s with
          is_awake := true
          events := s.events ++ [(true, avgOf q)]
          wake_status_t := some now
          wake_event_t := some now } := by
  have h1 : debounceReady s.wake_status_t DEBOUNCE_WAKE_STATUS now = true := by
    rw [hst]; rfl
  have h2 : debounceReady s.wake_event_t DEBOUNCE_WAKE_EVENT now = true := by
    rw [het]; rfl
  have hc1 : avgOf q ≥ AWAKE_THRESHOLD ∧ s.is_awake = false := ⟨hT, hA⟩
  rw [setWakenessStatus, if_pos h1, if_pos hq, if_pos hc1,
    writeWakenessEvent, if_pos h2]
  simp [hq]

/-- C5: starting asleep with fresh debounce timers, a run of evaluations
whose aggregates are all at or above `AWAKE_THRESHOLD` (confidence risen
past the threshold and staying above) logs exactly one AWAKE transition
event, no matter how many further evaluations occur; and — independent
of the debounce timers — any evaluation made while already awake with
aggregate at or above the threshold is a no-op via the state-equality
guard. -/
theorem awake_transition_logged_once (s : DetectorState) (e : ℚ × List ℚ)
    (rest : List (ℚ × List ℚ))
    (hA : s.is_awake = false) (hst : s.wake_status_t = none)
    (het : s.wake_event_t = none)
    (h : ∀ p ∈ e :: rest, p.2.length ≠ 0 ∧ AWAKE_THRESHOLD ≤ avgOf p.2) :
    (wakeRun s (e :: rest)).events = s.events ++ [(true, avgOf e.2)] ∧
    (wakeRun s (e :: rest)).is_awake = true ∧
    (∀ (s' : DetectorState) (now : ℚ) (q : List ℚ),
        s'.is_awake = true → AWAKE_THRESHOLD ≤ avgOf q →
        (setWakenessStatus now q s').is_awake = true ∧
        (setWakenessStatus now q s').events = s'.events) := by
  have hfire := setWakeness_first_fire e.1 e.2 s hA hst het
    (h e (by simp)).1 (h e (by simp)).2
  have hnoop := wakeRun_awake_noop rest (setWakenessStatus e.1 e.2 s)
    (by rw [hfire]) (fun p hp => (h p (by simp [hp])).2)
  refine ⟨?_, ?_, fun s' now q hA' hT' => setWakeness_awake_noop now q s' hA' hT'⟩
  · have hr : (wakeRun s (e :: rest)).events
        = (wakeRun (setWakenessStatus e.1 e.2 s) rest).events := by
      simp only [wakeRun, wakeStep, List.foldl_cons]
    rw [hr, hnoop.2, hfire]
  · have hr : (wakeRun s (e :: rest)).is_awake
        = (wakeRun (setWakenessStatus e.1 e.2 s) rest).is_awake := by
      simp only [wakeRun, wakeStep, List.foldl_cons]
    rw [hr]
    exact hnoop.1

/-- Concrete instance of `awake_transition_logged_once`: three
evaluations with window `[1]` from a fresh asleep detector log exactly
one awake event. -/
theorem awake_transition_logged_once_witness :
    (wakeRun ⟨false, [], none, none⟩
        [(0, [1]), (5, [1]), (200, [1])]).events = [(true, 1)] ∧
    (wakeRun ⟨false, [], none, none⟩
        [(0, [1]), (5, [1]), (200, [1])]).is_awake = true := by
  have h := awake_transition_logged_once ⟨false, [], none, none⟩ (0, [1])
    [(5, [1]), (200, [1])] rfl rfl rfl
    (by intro p hp
        fin_cases hp <;>
          exact ⟨by norm_num, by norm_num [avgOf, AWAKE_THRESHOLD]⟩)
  refine ⟨?_, h.2.1⟩
  have h1 := h.1
  norm_num [avgOf] at h1
  exact h1

/-! ### `backend/notifications/notifier.py` — `NotificationDispatcher`

Channels are modelled by their stable `name` and whether their `send`
raises (`ok = false` means the send raises an exception, which
`notify` catches).  The `cooldowns` dict is an association list, the
SQLite audit table (`sqlite_store.log_notification`) a list of
records, and `notify` additionally returns its trace of observable
actions in execution order (the cooldown-timestamp update, then one
attempt per configured channel), so that ordering claims can be
stated. -/


structure Channel where
  name : String
  ok : Bool
deriving Repr, DecidableEq

structure AuditRecord where
  event_type : String
  channel : String
  message : String
  delivered : Bool
deriving Repr, DecidableEq

inductive Act where
  | updateCooldown (event_type : String) (t : ℚ)
  | attempt (channel : String) (delivered : Bool)
deriving Repr, DecidableEq

structure NotificationDispatcher where
  channels : List Channel
  cooldowns : List (String × ℚ)
  cooldown_seconds : ℚ
  audit : List AuditRecord
deriving Repr, DecidableEq

def dictGet : List (String × ℚ) → String → Option ℚ
  | [], _ => none
  | (k', v') :: rest, k => if k' = k then some v' else dictGet rest k

def dictSet : List (String × ℚ) → String → ℚ → List (String × ℚ)
  | [], k, v => [(k, v)]
  | (k', v') :: rest, k, v =>
    if k' = k then (k, v) :: rest else (k', v') :: dictSet rest k v

def sendLoop (event_type message : String) :
    List Channel → Bool × List AuditRecord × List Act
  | [] => (false, [], [])
  | c :: rest =>
    let r := sendLoop event_type message rest
    (c.ok || r.1,
     ⟨event_type, c.name, message, c.ok⟩ :: r.2.1,
     Act.attempt c.name c.ok :: r.2.2)

def notify (d : NotificationDispatcher) (event_type message : String)
    (now : ℚ) : Bool × NotificationDispatcher × List Act :=
  let cooled : Bool :=
    match dictGet d.cooldowns event_type with
    | some last => decide (now - last < d.cooldown_seconds)
    | none => false
  if cooled then (false, d, [])
  else
    let r := sendLoop event_type message d.channels
    (r.1,
     { d with
         cooldowns := dictSet d.cooldowns event_type now
         audit := d.audit ++ r.2.1 },
     Act.updateCooldown event_type now :: r.2.2)

lemma dictGet_dictSet (m : List (String × ℚ)) (k : String) (v : ℚ) :
    dictGet (dictSet m k v) k = some v := by
  induction m with
  | nil => simp [dictGet, dictSet]
  | cons p rest ih =>
    by_cases h : p.1 = k
    · simp [dictSet, h, dictGet]
    · simp [dictSet, h, dictGet, ih]

lemma sendLoop_spec (event_type message : String) (l : List Channel) :
    (sendLoop event_type message l).1 = l.any (fun c => c.ok) ∧
    (sendLoop event_type message l).2.1
      = l.map (fun c => ⟨event_type, c.name, message, c.ok⟩) ∧
    (sendLoop event_type message l).2.2
      = l.map (fun c => Act.attempt c.name c.ok) := by
  induction l with
  | nil => simp [sendLoop]
  | cons c rest ih =>
    simp [sendLoop, ih.1, ih.2.1, ih.2.2, List.any_cons]

lemma notify_not_cooled (d : NotificationDispatcher) (et msg : String)
    (now : ℚ)
    (hfree : ∀ last, dictGet d.cooldowns et = some last →
      d.cooldown_seconds ≤ now - last) :
    notify d et msg now =
      (d.channels.any (fun c => c.ok),
       { d with
           cooldowns := dictSet d.cooldowns et now
           audit := d.audit ++
             d.channels.map (fun c => ⟨et, c.name, msg, c.ok⟩) },
       Act.updateCooldown et now ::
         d.channels.map (fun c => Act.attempt c.name c.ok)) := by
  have hcool :
      (match dictGet d.cooldowns et with
        | some last => decide (now - last < d.cooldown_seconds)
        | none => false) = false := by
    cases hg : dictGet d.cooldowns et with
    | none => rfl
    | some last =>
      simp only [decide_eq_false_iff_not, not_lt]
      exact hfree last hg
  rw [notify]
  simp only [hcool, if_false, Bool.false_eq_true]
  have hs := sendLoop_spec et msg d.channels
  rw [hs.1, hs.2.1, hs.2.2]

lemma notify_cooled (d : NotificationDispatcher) (et msg : String)
    (now last : ℚ) (hg : dictGet d.cooldowns et = some last)
    (hlt : now - last < d.cooldown_seconds) :
    notify d et msg now = (false, d, []) := by
  rw [notify]
  have hcool :
      (match dictGet d.cooldowns et with
        | some l => decide (now - l < d.cooldown_seconds)
        | none => false) = true := by
    rw [hg]
    simpa using hlt
  simp [hcool]

/-- C3: for two `notify()` calls with the same event type where the
first passes the cooldown check and the second occurs before
`cooldown_seconds` have elapsed since the first, the first call's action
trace begins with the cooldown-timestamp update followed by one attempt
per configured channel (the update precedes every attempt), the recorded
last-sent timestamp equals the first call's time regardless of channel
outcomes, and the second call returns false with zero channel attempts
and leaves the dispatcher unchanged. -/
theorem notify_cooldown_suppression (d : NotificationDispatcher)
    (et msg₁ msg₂ : String) (t₁ t₂ : ℚ)
    (hfree : ∀ last, dictGet d.cooldowns et = some last →
      d.cooldown_seconds ≤ t₁ - last)
    (hlt : t₂ - t₁ < d.cooldown_seconds) :
    ((notify d et msg₁ t₁).2.2 = Act.updateCooldown et t₁ ::
        d.channels.map (fun c => Act.attempt c.name c.ok)) ∧
    dictGet (notify d et msg₁ t₁).2.1.cooldowns et = some t₁ ∧
    (notify (notify d et msg₁ t₁).2.1 et msg₂ t₂).1 = false ∧
    (notify (notify d et msg₁ t₁).2.1 et msg₂ t₂).2.1
      = (notify d et msg₁ t₁).2.1 ∧
    (notify (notify d et msg₁ t₁).2.1 et msg₂ t₂).2.2 = [] := by
  have h1 := notify_not_cooled d et msg₁ t₁ hfree
  have hget : dictGet (notify d et msg₁ t₁).2.1.cooldowns et = some t₁ := by
    rw [h1]
    exact dictGet_dictSet d.cooldowns et t₁
  have hcs : (notify d et msg₁ t₁).2.1.cooldown_seconds = d.cooldown_seconds := by
    rw [h1]
  have h2 := notify_cooled (notify d et msg₁ t₁).2.1 et msg₂ t₂ t₁ hget
    (by rw [hcs]; exact hlt)
  refine ⟨by rw [h1], hget, ?_, ?_, ?_⟩ <;> rw [h2]

/-- Concrete instance of `notify_cooldown_suppression`: one failing
channel, first call at t=0, second at t=100 < 300. -/
theorem notify_cooldown_suppression_witness :
    ((notify ⟨[⟨"pushover", false⟩], [], 300, []⟩ "baby_woke_up" "m1" 0).2.2
      = [Act.updateCooldown "baby_woke_up" 0,
         Act.attempt "pushover" false]) ∧
    dictGet (notify ⟨[⟨"pushover", false⟩], [], 300, []⟩
        "baby_woke_up" "m1" 0).2.1.cooldowns "baby_woke_up" = some 0 ∧
    (notify (notify ⟨[⟨"pushover", false⟩], [], 300, []⟩
        "baby_woke_up" "m1" 0).2.1 "baby_woke_up" "m2" 100).1 = false ∧
    (notify (notify ⟨[⟨"pushover", false⟩], [], 300, []⟩
        "baby_woke_up" "m1" 0).2.1 "baby_woke_up" "m2" 100).2.1
      = (notify ⟨[⟨"pushover", false⟩], [], 300, []⟩
          "baby_woke_up" "m1" 0).2.1 ∧
    (notify (notify ⟨[⟨"pushover", false⟩], [], 300, []⟩
        "baby_woke_up" "m1" 0).2.1 "baby_woke_up" "m2" 100).2.2 = [] := by
  have h := notify_cooldown_suppression ⟨[⟨"pushover", false⟩], [], 300, []⟩
    "baby_woke_up" "m1" "m2" 0 100
    (by intro last hg; simp [dictGet] at hg)
    (by norm_num)
  exact ⟨by simpa using h.1, h.2.1, h.2.2.1, h.2.2.2.1, h.2.2.2.2⟩

/-- C8: a `notify()` call that passes the cooldown check attempts every
configured channel independently — a raising channel is recorded in the
audit log with `delivered = false` and does not prevent later channels
from being attempted (the audit gains exactly one record per channel,
with event type, channel name, message and delivered flag, in channel
order) — and returns true iff at least one channel send succeeded. -/
theorem notify_channel_isolation (d : NotificationDispatcher)
    (et msg : String) (now : ℚ)
    (hfree : ∀ last, dictGet d.cooldowns et = some last →
      d.cooldown_seconds ≤ now - last) :
    ((notify d et msg now).1 = true ↔ ∃ c ∈ d.channels, c.ok = true) ∧
    (notify d et msg now).2.1.audit
      = d.audit ++ d.channels.map (fun c => ⟨et, c.name, msg, c.ok⟩) ∧
    (notify d et msg now).2.2
      = Act.updateCooldown et now ::
          d.channels.map (fun c => Act.attempt c.name c.ok) := by
  have h1 := notify_not_cooled d et msg now hfree
  refine ⟨?_, by rw [h1], by rw [h1]⟩
  rw [h1]
  simp [List.any_eq_true]

/-- Concrete instance of `notify_channel_isolation`: a failing channel
followed by a succeeding one; both attempts are audited and the call
returns true. -/
theorem notify_channel_isolation_witness :
    ((notify ⟨[⟨"pushover", false⟩, ⟨"telegram", true⟩], [], 300, []⟩
        "baby_crying" "m" 0).1 = true ↔
      ∃ c ∈ [(⟨"pushover", false⟩ : Channel), ⟨"telegram", true⟩],
        c.ok = true) ∧
    (notify ⟨[⟨"pushover", false⟩, ⟨"telegram", true⟩], [], 300, []⟩
        "baby_crying" "m" 0).2.1.audit
      = [⟨"baby_crying", "pushover", "m", false⟩,
         ⟨"baby_crying", "telegram", "m", true⟩] := by
  have h := notify_channel_isolation
    ⟨[⟨"pushover", false⟩, ⟨"telegram", true⟩], [], 300, []⟩
    "baby_crying" "m" 0
    (by intro last hg; simp [dictGet] at hg)
  exact ⟨h.1, by simpa using h.2.1⟩

/-- C10: with zero configured channels, a `notify()` call outside the
cooldown window returns false (no channel succeeded) and appends nothing
to the audit log, yet still records its time as the last-sent timestamp
for the event type, so a second call within the cooldown window is
suppressed (returns false with zero channel attempts) although nothing
was ever delivered. -/
theorem notify_zero_channels_cooldown (d : NotificationDispatcher)
    (et msg₁ msg₂ : String) (t₁ t₂ : ℚ) (hch : d.channels = [])
    (hfree : ∀ last, dictGet d.cooldowns et = some last →
      d.cooldown_seconds ≤ t₁ - last)
    (hlt : t₂ - t₁ < d.cooldown_seconds) :
    (notify d et msg₁ t₁).1 = false ∧
    dictGet (notify d et msg₁ t₁).2.1.cooldowns et = some t₁ ∧
    (notify d et msg₁ t₁).2.1.audit = d.audit ∧
    (notify (notify d et msg₁ t₁).2.1 et msg₂ t₂).1 = false ∧
    (notify (notify d et msg₁ t₁).2.1 et msg₂ t₂).2.2 = [] := by
  have h1 := notify_not_cooled d et msg₁ t₁ hfree
  have hget : dictGet (notify d et msg₁ t₁).2.1.cooldowns et = some t₁ := by
    rw [h1]
    exact dictGet_dictSet d.cooldowns et t₁
  have hcs : (notify d et msg₁ t₁).2.1.cooldown_seconds
      = d.cooldown_seconds := by rw [h1]
  have h2 := notify_cooled (notify d et msg₁ t₁).2.1 et msg₂ t₂ t₁ hget
    (by rw [hcs]; exact hlt)
  refine ⟨by rw [h1]; simp [hch], hget, by rw [h1]; simp [hch],
    by rw [h2], by rw [h2]⟩

/-- Concrete instance of `notify_zero_channels_cooldown`: no channels,
first call at t=10, second at t=20. -/
theorem notify_zero_channels_cooldown_witness :
    (notify ⟨[], [], 300, []⟩ "diaper_reminder" "m1" 10).1 = false ∧
    dictGet (notify ⟨[], [], 300, []⟩
        "diaper_reminder" "m1" 10).2.1.cooldowns "diaper_reminder"
      = some 10 ∧
    (notify ⟨[], [], 300, []⟩ "diaper_reminder" "m1" 10).2.1.audit = [] ∧
    (notify (notify ⟨[], [], 300, []⟩ "diaper_reminder" "m1" 10).2.1
        "diaper_reminder" "m2" 20).1 = false ∧
    (notify (notify ⟨[], [], 300, []⟩ "diaper_reminder" "m1" 10).2.1
        "diaper_reminder" "m2" 20).2.2 = [] := by
  exact notify_zero_channels_cooldown ⟨[], [], 300, []⟩
    "diaper_reminder" "m1" "m2" 10 20 rfl
    (by intro last hg; simp [dictGet] at hg)
    (by norm_num)


/-! ### `backend/trackers/diaper_tracker.py` — `DiaperTracker`

`check_reminder_needed` reads the timestamp of the last logged diaper
change from the event store (`None` when there is none or it cannot be
parsed); the two wall-clock reads (`datetime.now()` for the elapsed
hours and `time.time()` for the cooldown) are modelled by the single
parameter `now`, in seconds.  `round1` is Python's `round(x, 1)`. -/


structure DiaperTracker where
  reminder_hours : ℚ
  last_reminder_time : ℚ
deriving Repr, DecidableEq

def round1 (x : ℚ) : ℚ := (round (10 * x) : ℚ) / 10

def check_reminder_needed (t : DiaperTracker) (last_change : Option ℚ)
    (now : ℚ) : DiaperTracker × Option (String × ℚ) :=
  match last_change with
  | none => (t, none)
  | some last_time =>
    if t.reminder_hours ≤ (now - last_time) / 3600 ∧
        NOTIFICATION_COOLDOWN_SECONDS < now - t.last_reminder_time then
      ({ t with last_reminder_time := now },
       some ("diaper_reminder", round1 ((now - last_time) / 3600)))
    else (t, none)

/-- C9: with reminder threshold `DIAPER_REMINDER_HOURS = 4` hours,
cooldown `NOTIFICATION_COOLDOWN_SECONDS = 300` s, never previously fired
(`last_reminder_time = 0`), and the last logged change 5 hours
(18000 s) old, `check_reminder_needed` returns
`("diaper_reminder", 5)` and updates `last_reminder_time` to the current
time; an immediately repeated check with the clock unchanged returns
none. -/
theorem diaper_reminder_scenario :
    (check_reminder_needed ⟨DIAPER_REMINDER_HOURS, 0⟩
        (some (1000000 - 18000)) 1000000).2
      = some ("diaper_reminder", 5) ∧
    (check_reminder_needed ⟨DIAPER_REMINDER_HOURS, 0⟩
        (some (1000000 - 18000)) 1000000).1.last_reminder_time = 1000000 ∧
    (check_reminder_needed
        (check_reminder_needed ⟨DIAPER_REMINDER_HOURS, 0⟩
          (some (1000000 - 18000)) 1000000).1
        (some (1000000 - 18000)) 1000000).2 = none := by
  norm_num [check_reminder_needed, round1, DIAPER_REMINDER_HOURS,
    NOTIFICATION_COOLDOWN_SECONDS, round_eq]

/-! ### `SleepDetector._movement_voting_logic`

Coordinates are modelled as reals.  `statistics.pstdev` (Python standard
library) is the population standard deviation; Python's `int()` on a
float truncates toward zero (`pyInt`).  The movement state holds the
`body_found` flag set by `_process_face_and_pose`, the `movement_q`
window of `(left_wrist, right_wrist)` pixel positions (capacity
`MOVEMENT_Q_SIZE`), the shared `awake_q` vote window and the reason
list. -/

noncomputable def mean (l : List ℝ) : ℝ := l.sum / l.length

noncomputable def pstdev (l : List ℝ) : ℝ :=
  Real.sqrt ((l.map (fun x => (x - mean l) ^ 2)).sum / l.length)

structure MoveState where
  body_found : Bool
  movement_q : Deque ((ℝ × ℝ) × (ℝ × ℝ))
  awake_q : Deque ℚ
  vote_reasons : List String

noncomputable def movementScore (q : List ((ℝ × ℝ) × (ℝ × ℝ))) : ℝ :=
  (((pstdev (q.map (fun c => c.1.1)) - 1) + (pstdev (q.map (fun c => c.1.2)) - 1)) / 2
    + ((pstdev (q.map (fun c => c.2.1)) - 1) + (pstdev (q.map (fun c => c.2.2)) - 1)) / 2) / 2

/-- Modelled from the spec's words for comparison with the source's
`movementScore`: "the average of the population standard deviations of
both points' x and y coordinates". -/
noncomputable def claimedMovementScore (q : List ((ℝ × ℝ) × (ℝ × ℝ))) : ℝ :=
  (pstdev (q.map (fun c => c.1.1)) + pstdev (q.map (fun c => c.1.2))
    + pstdev (q.map (fun c => c.2.1)) + pstdev (q.map (fun c => c.2.2))) / 4

/-- Python `int()` applied to a float: truncation toward zero. -/
noncomputable def pyInt (x : ℝ) : ℤ := if 0 ≤ x then ⌊x⌋ else ⌈x⌉

noncomputable def movementVotingLogic (s : MoveState) : MoveState :=
  if s.body_found = false then
    (if s.movement_q.data.length ≠ 0 then
      { s with movement_q := s.movement_q.popleft }
    else s)
  else if 5 < s.movement_q.data.length then
    (if pyInt (movementScore s.movement_q.data) < MOVEMENT_STD_THRESHOLD then
      { s with
          awake_q := s.awake_q.append 0
          vote_reasons := s.vote_reasons ++ ["Not moving"] }
    else
      { s with
          awake_q := s.awake_q.append 1
          vote_reasons := s.vote_reasons ++ ["Moving"] })
  else s

noncomputable def movementQ0 : List ((ℝ × ℝ) × (ℝ × ℝ)) :=
  List.replicate 6 (((0 : ℝ), (0 : ℝ)), ((0 : ℝ), (0 : ℝ)))

lemma pstdev_replicate_zero : pstdev (List.replicate 6 (0 : ℝ)) = 0 := by
  simp [pstdev, mean]

lemma movementScore_q0 : movementScore movementQ0 = -1 := by
  have h : ∀ f : ((ℝ × ℝ) × (ℝ × ℝ)) → ℝ,
      movementQ0.map f = List.replicate 6 (f (((0 : ℝ), (0 : ℝ)), ((0 : ℝ), (0 : ℝ)))) := by
    intro f
    simp [movementQ0]
  simp only [movementScore, h]
  norm_num [pstdev_replicate_zero]

lemma claimedMovementScore_q0 : claimedMovementScore movementQ0 = 0 := by
  have h : ∀ f : ((ℝ × ℝ) × (ℝ × ℝ)) → ℝ,
      movementQ0.map f = List.replicate 6 (f (((0 : ℝ), (0 : ℝ)), ((0 : ℝ), (0 : ℝ)))) := by
    intro f
    simp [movementQ0]
  simp only [claimedMovementScore, h]
  norm_num [pstdev_replicate_zero]

/-- C6 (counterexample): on a window of six identical wrist samples the
source's movement score is −1 while the average of the four population
standard deviations is 0 — the code subtracts 1 from each standard
deviation, so the score does not equal the average of the population
standard deviations as claimed. -/
theorem movement_score_not_avg_pstdev :
    movementScore movementQ0 = -1 ∧ claimedMovementScore movementQ0 = 0 ∧
    movementScore movementQ0 ≠ claimedMovementScore movementQ0 := by
  refine ⟨movementScore_q0, claimedMovementScore_q0, ?_⟩
  rw [movementScore_q0, claimedMovementScore_q0]
  norm_num

/-- C6 (amended): (1) the movement score equals the average of the four
population standard deviations minus 1 (each is reduced by 1 before
averaging); (2) when no body is detected, no vote is appended to the
awake window and no reason recorded — the movement window is instead
shortened from the left; (3) with a body found the vote is evaluated
only when the window holds strictly more than 5 = MOVEMENT_Q_SIZE / 2
samples, otherwise the state is untouched; (4) when evaluated, a binary
vote (0 or 1) is appended by comparing the integer truncation of the
score against `MOVEMENT_STD_THRESHOLD`, with the matching reason tag. -/
theorem movement_vote_amended :
    (∀ q : List ((ℝ × ℝ) × (ℝ × ℝ)),
        movementScore q = claimedMovementScore q - 1) ∧
    (∀ s : MoveState, s.body_found = false →
        (movementVotingLogic s).awake_q = s.awake_q ∧
        (movementVotingLogic s).vote_reasons = s.vote_reasons ∧
        (movementVotingLogic s).movement_q.data = s.movement_q.data.tail) ∧
    (∀ s : MoveState, s.body_found = true → s.movement_q.data.length ≤ 5 →
        movementVotingLogic s = s) ∧
    (∀ s : MoveState, s.body_found = true → 5 < s.movement_q.data.length →
        (movementVotingLogic s).awake_q = s.awake_q.append
          (if pyInt (movementScore s.movement_q.data) < MOVEMENT_STD_THRESHOLD
            then 0 else 1) ∧
        (movementVotingLogic s).vote_reasons = s.vote_reasons ++
          [(if pyInt (movementScore s.movement_q.data) < MOVEMENT_STD_THRESHOLD
            then "Not moving" else "Moving")]) := by
  refine ⟨?_, ?_, ?_, ?_⟩
  · intro q
    unfold movementScore claimedMovementScore
    ring
  · intro s hb
    rw [movementVotingLogic, if_pos (by rw [hb])]
    by_cases h : s.movement_q.data.length ≠ 0
    · rw [if_pos h]
      exact ⟨rfl, rfl, rfl⟩
    · rw [if_neg h]
      simp at h
      simp [h]
  · intro s hb hlen
    rw [movementVotingLogic, if_neg (by rw [hb]; simp),
      if_neg (by omega)]
  · intro s hb hlen
    rw [movementVotingLogic, if_neg (by rw [hb]; simp), if_pos hlen]
    by_cases h : pyInt (movementScore s.movement_q.data) < MOVEMENT_STD_THRESHOLD
    · rw [if_pos h, if_pos h, if_pos h]
      exact ⟨rfl, rfl⟩
    · rw [if_neg h, if_neg h, if_neg h]
      exact ⟨rfl, rfl⟩

noncomputable def c6NoBodyState : MoveState :=
  ⟨false, ⟨MOVEMENT_Q_SIZE, movementQ0⟩, ⟨AWAKE_Q_SIZE, []⟩, []⟩

noncomputable def c6BodyState : MoveState :=
  ⟨true, ⟨MOVEMENT_Q_SIZE, movementQ0⟩, ⟨AWAKE_Q_SIZE, []⟩, []⟩

/-- Concrete instance of `movement_vote_amended`: the six-sample
all-zero window, a no-body state, and a body-found state that casts the
"Not moving" vote. -/
theorem movement_vote_amended_witness :
    (movementScore movementQ0 = claimedMovementScore movementQ0 - 1) ∧
    ((movementVotingLogic c6NoBodyState).awake_q = c6NoBodyState.awake_q ∧
     (movementVotingLogic c6NoBodyState).movement_q.data
        = c6NoBodyState.movement_q.data.tail) ∧
    ((movementVotingLogic c6BodyState).awake_q
        = c6BodyState.awake_q.append 0 ∧
     (movementVotingLogic c6BodyState).vote_reasons = ["Not moving"]) := by
  have hlen : 5 < c6BodyState.movement_q.data.length := by
    simp [c6BodyState, movementQ0]
  have h4 := movement_vote_amended.2.2.2 c6BodyState rfl hlen
  have hscore : c6BodyState.movement_q.data = movementQ0 := rfl
  have hpy : pyInt (movementScore movementQ0) < MOVEMENT_STD_THRESHOLD := by
    rw [movementScore_q0]
    have hpy1 : pyInt (-1 : ℝ) = -1 := by
      rw [pyInt, if_neg (by norm_num)]
      have hcast : ((-1 : ℝ)) = ((-1 : ℤ) : ℝ) := by norm_num
      rw [hcast, Int.ceil_intCast]
    rw [hpy1]
    norm_num [MOVEMENT_STD_THRESHOLD]
  refine ⟨movement_vote_amended.1 movementQ0, ?_, ?_⟩
  · have h2 := movement_vote_amended.2.1 c6NoBodyState rfl
    exact ⟨h2.1, h2.2.2⟩
  · rw [hscore] at h4
    rw [if_pos hpy] at h4
    rw [if_pos hpy] at h4
    exact ⟨h4.1, by rw [h4.2]; simp [c6BodyState]⟩


end BabySleep
